import Mathlib

/-!
Verification development for the custom_clearance application.

This file gives a shallow embedding, in Lean 4, of the core of
`custom_clearance/custom_clearance/doctype/custom_clearance/custom_clearance.py`:
the Clearance record and its child Document Requirement rows, the save-time
validation hook (document checklist auto-promotion and the status transition
guard) and the whitelisted entry points the claims refer to
(`update_document_status`, `update_document_attachment`,
`update_clearance_status`, `create_sales_invoice`, `save_payment_info`) as
well as the sales-invoice lifecycle hooks
(`update_clearance_payment_status`, `handle_sales_invoice_cancel`).

Conventions of the embedding:
* Python strings are `String`; status values stay strings because the code
  compares them as strings (and unrecognized values must be representable).
* A Python value tested for truthiness that is either absent/empty or a
  meaningful value is an `Option`: `none` models the falsy case.
* `frappe.throw` is an `Except CCError` error; the error kind mirrors the
  exception class passed to `frappe.throw`.
* `doc.save()` runs the `validate` hook with `_doc_before_save` bound to the
  previously persisted version; this is `runValidate`.  `doc.db_set` /
  `frappe.db.set_value` are direct field writes that bypass the hook; they
  are plain record updates here.
* External state consulted by the endpoints (contact links, portal users,
  role lists) is an explicit environment `Env` of lookup functions.
-/

namespace CustomClearance

/-- Error kinds raised through `frappe.throw`.  `validationError` is the
default `frappe.ValidationError`; the others mirror the exception classes
used in the source (`frappe.PermissionError`, `frappe.DoesNotExistError`),
plus the duplicate-invoice and missing-dependency failures that are thrown
with plain messages. -/
inductive CCError where
  | permissionDenied (msg : String)
  | notFound (msg : String)
  | validationError (msg : String)
  | duplicateOp (msg : String)
  | missingDependency (msg : String)
deriving Repr, DecidableEq

/-- One row of the `required_documents` child table (Document Requirement). -/
structure ReqDoc where
  name : String
  document_name : String
  is_required : Bool
  status : String
  reason : Option String
  attachment : Option String
deriving Repr, DecidableEq

/-- The Clearance record (doctype Custom Clearance), restricted to the fields
the embedded operations read or write. -/
structure Clearance where
  name : String
  status : String
  customer : String
  sales_invoice : Option String
  payment_status : String
  payment_date : Option String
  required_documents : List ReqDoc
  amount : Option Rat
  additional_payment_amount : Option Rat
  risk_status_comment : Option String
  first_payment_branch : Option String
  first_payment_account_number : Option String
  first_payment_custom_id_code : Option String
  second_payment_branch : Option String
  second_payment_account_number : Option String
  second_payment_custom_id_code : Option String
deriving Repr, DecidableEq

/-- The scanning loop of `CustomClearance.validate` (lines 15-22): walks the
rows carrying `all_mandatory_accepted` (first component) and
`has_required_docs` (second component); breaks on the first mandatory row
whose status is not "Accepted". -/
def scanGo (allAcc hasReq : Bool) : List ReqDoc → Bool × Bool
  | [] => (allAcc, hasReq)
  | d :: ds =>
    if d.is_required then
      if d.status ≠ "Accepted" then (false, true)
      else scanGo allAcc true ds
    else scanGo allAcc hasReq ds

/-- `scanDocs ds = (all_mandatory_accepted, has_required_docs)` after the loop
of `validate`. -/
def scanDocs (ds : List ReqDoc) : Bool × Bool :=
  scanGo true false ds

/-- Does at least one mandatory row exist?  (specification-level reading of
`has_required_docs`). -/
def hasMandatory (ds : List ReqDoc) : Bool :=
  ds.any (·.is_required)

/-- Is every mandatory row accepted?  (specification-level reading of
`all_mandatory_accepted`). -/
def allMandatoryAccepted (ds : List ReqDoc) : Bool :=
  ds.all (fun d => !d.is_required || d.status == "Accepted")

/-- The checklist-engine part of `validate` (lines 14-25): when the status is
"Document Submitting" and the child table is non-empty, promote to
"In Review" exactly when a mandatory row exists and all mandatory rows are
accepted. -/
def applyChecklist (c : Clearance) : Clearance :=
  if c.status = "Document Submitting" ∧ c.required_documents ≠ [] then
    let s := scanDocs c.required_documents
    if s.2 && s.1 then { c with status := "In Review" } else c
  else c

/-- `validate_status_transition` (lines 34-44).  Both guards are gated on
`self._doc_before_save` being present; `frappe.throw` raises, so the second
check only runs when the first passed. -/
def validate_status_transition (prior : Option Clearance) (c : Clearance) :
    Except CCError Unit :=
  match prior with
  | none => .ok ()
  | some p =>
    if c.status = "Risk Analysis" ∧ p.status ≠ "In Review" ∧ p.status ≠ "Risk Analysis" then
      .error (.validationError "Status can only be changed to Risk Analysis from In Review")
    else if c.status = "Cleared" ∧ p.status ≠ "Risk Analysis" ∧ p.status ≠ "Cleared" then
      .error (.validationError "Status can only be changed to Cleared from Risk Analysis")
    else .ok ()

/-- `self.has_value_changed("status")`: compares the current in-memory value
(after the checklist may have rewritten it) with the previously persisted
value; a document with no persisted prior version counts as changed. -/
def statusChanged (prior : Option Clearance) (c : Clearance) : Bool :=
  match prior with
  | none => true
  | some p => p.status != c.status

/-- The full `validate` hook as run by `doc.save()` (lines 11-29): checklist
promotion first, then the transition guard when the status changed relative
to the persisted version.  Returns the document as it is persisted. -/
def runValidate (prior : Option Clearance) (c0 : Clearance) :
    Except CCError Clearance :=
  let c := applyChecklist c0
  if statusChanged prior c then
    match validate_status_transition prior c with
    | .ok _ => .ok c
    | .error e => .error e
  else .ok c

/-- External lookup state consulted by the whitelisted endpoints:
`contact_customer user` is the Customer link of the Contact whose `user`
field is that user (the first Customer link found), `portal_customer user`
the parent Customer of a Portal User row for that user, and `roles user`
is `frappe.get_roles(user)`. -/
structure Env where
  contact_customer : String → Option String
  portal_customer : String → Option String
  roles : String → List String

/-- The customer-resolution pattern duplicated across the endpoints: Contact
link first, Portal User fallback. -/
def resolveCustomer (env : Env) (user : String) : Option String :=
  match env.contact_customer user with
  | some c => some c
  | none => env.portal_customer user

/-- The permission block shared verbatim by `update_document_attachment`
(lines 168-192) and `update_document_status` (lines 228-254): Administrator
passes; otherwise the session user must resolve to the clearance's own
customer, else a PermissionError is thrown. -/
def customerMatchPerm (env : Env) (user : String) (c : Clearance) :
    Except CCError Unit :=
  if user = "Administrator" then .ok ()
  else
    match resolveCustomer env user with
    | some cust =>
      if c.customer = cust then .ok ()
      else .error (.permissionDenied "You do not have permission to update this Custom Clearance")
    | none => .error (.permissionDenied "You do not have permission to update this Custom Clearance")

/-- The row-mutation loop of `update_document_status` (lines 258-264): set
`status` on the first row named `row_name`; set `reason` only when a truthy
reason was supplied. -/
def setRowStatus (ds : List ReqDoc) (row_name status_in : String)
    (reason : Option String) : List ReqDoc :=
  match ds with
  | [] => []
  | d :: rest =>
    if d.name = row_name then
      { d with status := status_in,
               reason := match reason with
                         | some r => some r
                         | none => d.reason } :: rest
    else d :: setRowStatus rest row_name status_in reason

/-- Was a row with this id found by the mutation loop? -/
def rowFound (ds : List ReqDoc) (row_name : String) : Bool :=
  ds.any (·.name == row_name)

/-- The post-save re-scan of `update_document_status` (lines 275-280): like
the `validate` loop it breaks on the first mandatory row that is not
accepted, but it does not track whether any mandatory row exists. -/
def postScan : List ReqDoc → Bool
  | [] => true
  | d :: ds =>
    if d.is_required then
      if d.status ≠ "Accepted" then false else postScan ds
    else postScan ds

/-- `update_document_status` (lines 216-285).  Permission: Administrator
passes; otherwise the resolved customer must equal the clearance's customer
(`elif not customer or clearance.customer != customer: throw`).  After a
successful save, if the saved status is "Document Submitting" and the child
table is non-empty and the re-scan finds every mandatory row accepted, the
status is forced to "Review" by `db_set` (a direct write that does not run
`validate`). -/
def update_document_status (env : Env) (user : String) (clearance : Clearance)
    (row_name status_in : String) (reason : Option String) :
    Except CCError Clearance :=
  if user = "Guest" then
    .error (.permissionDenied "Please login to update document status")
  else
    match customerMatchPerm env user clearance with
    | .error e => .error e
    | .ok _ =>
      if rowFound clearance.required_documents row_name then
        let c2 := { clearance with
          required_documents :=
            setRowStatus clearance.required_documents row_name status_in reason }
        match runValidate (some clearance) c2 with
        | .error e => .error e
        | .ok saved =>
          if saved.status = "Document Submitting" ∧ saved.required_documents ≠ [] then
            if postScan saved.required_documents then
              .ok { saved with status := "Review" }
            else .ok saved
          else .ok saved
      else .error (.notFound "Document row not found")

/-- The row-mutation loop of `update_document_attachment` (lines 196-204):
set `attachment` on the first row named `row_name`; when this is a re-upload
and the row is currently declined, reset its status to "In Review" and clear
the decline reason. -/
def setRowAttachment (ds : List ReqDoc) (row_name file_url : String)
    (is_reupload : Bool) : List ReqDoc :=
  match ds with
  | [] => []
  | d :: rest =>
    if d.name = row_name then
      (if is_reupload ∧ d.status = "Declined" then
        { d with attachment := some file_url, status := "In Review", reason := none }
      else { d with attachment := some file_url }) :: rest
    else d :: setRowAttachment rest row_name file_url is_reupload

/-- `update_document_attachment` (lines 157-213).  Permission: Administrator
passes; otherwise the resolved customer must equal the clearance's customer.
The document is then saved through the `validate` hook. -/
def update_document_attachment (env : Env) (user : String)
    (clearance : Clearance) (row_name file_url : String) (is_reupload : Bool) :
    Except CCError Clearance :=
  if user = "Guest" then
    .error (.permissionDenied "Please login to upload documents")
  else
    match customerMatchPerm env user clearance with
    | .error e => .error e
    | .ok _ =>
      if rowFound clearance.required_documents row_name then
        runValidate (some clearance)
          { clearance with
            required_documents :=
              setRowAttachment clearance.required_documents row_name file_url is_reupload }
      else .error (.notFound "Document row not found")

/-- The `is_customer` computation of `update_clearance_status` (lines
299-322): true only when the caller is not the Administrator and the
resolved customer equals the clearance's own customer.  A caller resolving
to a different customer, or to no customer at all, yields false. -/
def isOwnCustomer (env : Env) (user : String) (c : Clearance) : Bool :=
  if user = "Administrator" then false
  else
    match resolveCustomer env user with
    | some cust => c.customer == cust
    | none => false

/-- `update_clearance_status`, continued: the caller is rejected exactly when
`is_customer` came out true; otherwise the status (and optionally comment and
extra amount) are written and the document saved through `validate`. -/
def update_clearance_status (env : Env) (user : String) (clearance : Clearance)
    (status_in : String) (comment : Option String) (additional_payment_amount : Option Rat) :
    Except CCError Clearance :=
  if user = "Guest" then
    .error (.permissionDenied "Please login to update status")
  else
    if isOwnCustomer env user clearance then
      .error (.permissionDenied "You do not have permission to change the clearance status")
    else
      let c2 := { clearance with
        status := status_in,
        risk_status_comment :=
          match comment with
          | some s => some s
          | none => clearance.risk_status_comment,
        additional_payment_amount :=
          match additional_payment_amount with
          | some a => some a
          | none => clearance.additional_payment_amount }
      runValidate (some clearance) c2

/-- The status mapping of `update_clearance_payment_status` (lines 118-127):
the explicit elif chain, with the catch-all else also yielding "Pending". -/
def mapPaymentStatus (invoice_status : String) : String :=
  if invoice_status = "Paid" then "Paid"
  else if invoice_status = "Partly Paid" ∨ invoice_status = "Partly Paid and Discounted" then
    "Partially Paid"
  else if invoice_status = "Draft" ∨ invoice_status = "Unpaid" ∨ invoice_status = "Overdue" ∨
          invoice_status = "Unpaid and Discounted" ∨ invoice_status = "Overdue and Discounted" ∨
          invoice_status = "Submitted" ∨ invoice_status = "Cancelled" ∨
          invoice_status = "Return" ∨ invoice_status = "Credit Note Issued" ∨
          invoice_status = "Internal Transfer" then
    "Pending"
  else "Pending"

/-- `update_clearance_payment_status` (lines 111-134), the invoice
status-change hook.  `linked` is the Custom Clearance found by the reverse
lookup on `sales_invoice` (none when the invoice is not linked).  All writes
are `frappe.db.set_value` direct field updates; no `validate` hook runs. -/
def update_clearance_payment_status (linked : Option Clearance)
    (invoice_status todayDate : String) : Option Clearance :=
  match linked with
  | none => none
  | some c =>
    let c1 := { c with payment_status := mapPaymentStatus invoice_status }
    if invoice_status = "Paid" then
      some { c1 with payment_date := some todayDate }
    else some c1

/-- `handle_sales_invoice_cancel` (lines 137-154): unlink the invoice, reset
the payment mirror, and roll a Green/Yellow/Red display status back to
"Review".  All writes are direct field updates. -/
def handle_sales_invoice_cancel (linked : Option Clearance) : Option Clearance :=
  match linked with
  | none => none
  | some c =>
    let c1 := { c with sales_invoice := none,
                       payment_status := "Pending",
                       payment_date := none }
    if c1.status = "Green" ∨ c1.status = "Yellow" ∨ c1.status = "Red" then
      some { c1 with status := "Review" }
    else some c1

/-- One line item of a Sales Invoice as built by `create_sales_invoice`. -/
structure InvoiceItem where
  item_code : String
  qty : Nat
  rate : Rat
deriving Repr, DecidableEq

/-- The Sales Invoice document built by `create_sales_invoice` (it is
inserted but never submitted). -/
structure SalesInvoice where
  customer : String
  posting_date : String
  due_date : String
  items : List InvoiceItem
  custom_clearance_link : Option String
  submitted : Bool
deriving Repr, DecidableEq

/-- Environment of `create_sales_invoice`: the "Custom Clearance Service"
Item looked up in the database, and whether the Sales Invoice doctype has
the `custom_custom_clearance` column. -/
structure SIEnv where
  service_item : Option String
  has_clearance_column : Bool
deriving Repr

/-- Python truthiness of the stored Currency field `amount` (absent or zero
is falsy). -/
def ratTruthy : Option Rat → Bool
  | none => false
  | some v => v != 0

/-- `create_sales_invoice` (lines 70-108).  Fails when an invoice is already
linked; otherwise builds an unsubmitted invoice for the clearance's customer
with one line at `flt(amount) if amount else 0`, links it back by `db_set`,
and returns its identifier.  `new_invoice_name` stands for the name the
framework assigns on insert. -/
def create_sales_invoice (env : SIEnv) (c : Clearance)
    (todayDate new_invoice_name : String) :
    Except CCError (SalesInvoice × Clearance × String) :=
  if c.sales_invoice.isSome then
    .error (.duplicateOp "Sales Invoice already created")
  else
    match env.service_item with
    | none =>
      .error (.missingDependency "Custom Clearance Service item not found. Please ensure it is created during app installation.")
    | some item =>
      let inv : SalesInvoice :=
        { customer := c.customer,
          posting_date := todayDate,
          due_date := todayDate,
          items := [{ item_code := item, qty := 1,
                      rate := if ratTruthy c.amount then c.amount.getD 0 else 0 }],
          custom_clearance_link :=
            if env.has_clearance_column then some c.name else none,
          submitted := false }
      .ok (inv, { c with sales_invoice := some new_invoice_name }, new_invoice_name)

/-- Environment of the notification side effect of `save_payment_info`:
the Portal User of the customer, the User found via the customer's Contact
email, and whether inserting the Notification Log raises. -/
structure NotifEnv where
  portal_user_of_customer : String → Option String
  contact_email_user_of_customer : String → Option String
  insert_fails : Bool

/-- The payment-field merge of `save_payment_info` (lines 514-531): each
supplied (truthy) argument overwrites the matching first/second payment
field. -/
def mergePayment (c : Clearance) (payment_type : String) (amount : Option Rat)
    (branch account_number custom_id_code : Option String) : Clearance :=
  if payment_type = "first" then
    { c with
      amount := match amount with | some a => some a | none => c.amount,
      first_payment_branch :=
        match branch with | some b => some b | none => c.first_payment_branch,
      first_payment_account_number :=
        match account_number with | some a => some a | none => c.first_payment_account_number,
      first_payment_custom_id_code :=
        match custom_id_code with | some k => some k | none => c.first_payment_custom_id_code }
  else if payment_type = "second" then
    { c with
      additional_payment_amount :=
        match amount with | some a => some a | none => c.additional_payment_amount,
      second_payment_branch :=
        match branch with | some b => some b | none => c.second_payment_branch,
      second_payment_account_number :=
        match account_number with | some a => some a | none => c.second_payment_account_number,
      second_payment_custom_id_code :=
        match custom_id_code with | some k => some k | none => c.second_payment_custom_id_code }
  else c

/-- The try/except notification block of `save_payment_info` (lines 538-578):
resolve the customer's user (Portal User first, Contact email fallback); when
one is found insert a Notification Log.  Every exception is caught and
logged.  The result records whether a notification was actually inserted. -/
def notificationAttempt (notif : NotifEnv) (customer : String) : Bool :=
  let customer_user : Option String :=
    match notif.portal_user_of_customer customer with
    | some u => some u
    | none => notif.contact_email_user_of_customer customer
  match customer_user with
  | some _ => if notif.insert_fails then false else true
  | none => false

/-- The staff test of `save_payment_info` (lines 498-504): Administrator, or
a role set that does not contain "Customer" or has more than one role. -/
def isStaff (env : Env) (user : String) : Bool :=
  if user = "Administrator" then true
  else
    let user_roles := env.roles user
    if ¬ user_roles.contains "Customer" ∨ user_roles.length > 1 then true
    else false

/-- `save_payment_info` (lines 488-580).  Guest and non-staff callers are
rejected, an invalid payment type is rejected, the payment fields are merged
and saved through the `validate` hook, and then the notification attempt
runs inside try/except: its outcome never changes the returned success.  The
result pairs the saved clearance with whether a notification was inserted. -/
def save_payment_info (env : Env) (notif : NotifEnv) (user : String)
    (clearance : Clearance) (payment_type : String) (amount : Option Rat)
    (branch account_number custom_id_code : Option String) :
    Except CCError (Clearance × Bool) :=
  if user = "Guest" then
    .error (.permissionDenied "Please login to save payment information")
  else if ¬ isStaff env user then
    .error (.permissionDenied "Only staff members can save payment information")
  else if ¬ (payment_type = "first" ∨ payment_type = "second") then
    .error (.validationError "Invalid payment type. Must be first or second")
  else
    let c2 := mergePayment clearance payment_type amount branch account_number custom_id_code
    match runValidate (some clearance) c2 with
    | .error e => .error e
    | .ok saved =>
      let notified := notificationAttempt notif clearance.customer
      .ok (saved, notified)

/-! ### Concrete records and environments used when instantiating theorems -/

/-- A minimal clearance record for customer "CUST-A". -/
def baseClearance : Clearance :=
  { name := "CC-0001", status := "Document Submitting", customer := "CUST-A",
    sales_invoice := none, payment_status := "Pending", payment_date := none,
    required_documents := [], amount := none, additional_payment_amount := none,
    risk_status_comment := none, first_payment_branch := none,
    first_payment_account_number := none, first_payment_custom_id_code := none,
    second_payment_branch := none, second_payment_account_number := none,
    second_payment_custom_id_code := none }

/-- An environment with no contact links, no portal users and no roles. -/
def envTriv : Env :=
  { contact_customer := fun _ => none,
    portal_customer := fun _ => none,
    roles := fun _ => [] }

/-- An environment where user "alice" carries the Customer role and is linked
through a Contact to customer "CUST-B" (not the customer of
`baseClearance`). -/
def envOther : Env :=
  { contact_customer := fun u => if u = "alice" then some "CUST-B" else none,
    portal_customer := fun _ => none,
    roles := fun u => if u = "alice" then ["Customer"] else [] }

/-- An environment where user "bob" is linked through a Contact to
"CUST-A", the customer of `baseClearance`. -/
def envOwn : Env :=
  { contact_customer := fun u => if u = "bob" then some "CUST-A" else none,
    portal_customer := fun _ => none,
    roles := fun u => if u = "bob" then ["Customer"] else [] }

/-- An environment where user "staff1" holds a single non-customer role. -/
def envStaff : Env :=
  { contact_customer := fun _ => none,
    portal_customer := fun _ => none,
    roles := fun u => if u = "staff1" then ["System Manager"] else [] }

/-- A notification environment that resolves a customer user for "CUST-A"
but whose Notification Log insert raises. -/
def notifFailing : NotifEnv :=
  { portal_user_of_customer := fun cu => if cu = "CUST-A" then some "alice" else none,
    contact_email_user_of_customer := fun _ => none,
    insert_fails := true }

/-- A mandatory document row that has been accepted. -/
def rowMandatoryAccepted : ReqDoc :=
  { name := "ROW1", document_name := "Bill of Lading", is_required := true,
    status := "Accepted", reason := none, attachment := none }

/-- An optional (non-mandatory) document row, still in review. -/
def rowOptionalPending : ReqDoc :=
  { name := "ROW1", document_name := "Packing List", is_required := false,
    status := "In Review", reason := none, attachment := none }

/-- A second optional document row. -/
def rowOptionalOther : ReqDoc :=
  { name := "ROW2", document_name := "Insurance Certificate", is_required := false,
    status := "In Review", reason := none, attachment := none }

/-- A declined row carrying a decline reason. -/
def rowDeclined : ReqDoc :=
  { name := "ROW1", document_name := "Invoice Copy", is_required := false,
    status := "Declined", reason := some "blurred scan", attachment := none }

/-- Clearance in Document Submitting whose single mandatory row is
accepted. -/
def clearanceAllAccepted : Clearance :=
  { baseClearance with required_documents := [rowMandatoryAccepted] }

/-- Clearance in Document Submitting with a single optional row. -/
def clearanceNoMandatory : Clearance :=
  { baseClearance with required_documents := [rowOptionalPending] }

/-- Clearance in Document Submitting with two optional rows. -/
def clearanceTwoOptional : Clearance :=
  { baseClearance with required_documents := [rowOptionalPending, rowOptionalOther] }

/-- Clearance carrying one declined row. -/
def clearanceDeclinedRow : Clearance :=
  { baseClearance with required_documents := [rowDeclined] }

/-- `clearanceNoMandatory` as persisted by the guarded save inside
`update_document_status` when row "ROW1" is set to "Accepted". -/
def savedNoMandatory : Clearance :=
  { clearanceNoMandatory with
    required_documents :=
      setRowStatus clearanceNoMandatory.required_documents "ROW1" "Accepted" none }

/-- Invoice-creation environment with the service item installed and the
custom link column present. -/
def envSI : SIEnv :=
  { service_item := some "Custom Clearance Service", has_clearance_column := true }

/-- A clearance that already has a linked sales invoice. -/
def clearanceLinked : Clearance :=
  { baseClearance with sales_invoice := some "SINV-0001" }

/-! ### Lemmas about the checklist scan and the save hook -/

theorem scanGo_eq (ds : List ReqDoc) :
    ∀ b, scanGo true b ds = (allMandatoryAccepted ds, b || hasMandatory ds) := by
  induction ds with
  | nil =>
    intro b
    simp [scanGo, allMandatoryAccepted, hasMandatory]
  | cons d rest ih =>
    intro b
    unfold scanGo
    by_cases hr : d.is_required = true
    · by_cases hs : d.status = "Accepted"
      · simp [hr, hs, ih, allMandatoryAccepted, hasMandatory, List.all_cons, List.any_cons]
      · simp [hr, hs, allMandatoryAccepted, hasMandatory, List.all_cons, List.any_cons]
    · have hr' : d.is_required = false := by
        cases h : d.is_required
        · rfl
        · exact absurd h hr
      simp [hr', ih, allMandatoryAccepted, hasMandatory, List.all_cons, List.any_cons]

theorem scanDocs_eq (ds : List ReqDoc) :
    scanDocs ds = (allMandatoryAccepted ds, hasMandatory ds) := by
  have h := scanGo_eq ds false
  simpa [scanDocs] using h

theorem postScan_eq (ds : List ReqDoc) : postScan ds = allMandatoryAccepted ds := by
  induction ds with
  | nil => rfl
  | cons d rest ih =>
    unfold postScan
    by_cases hr : d.is_required = true
    · by_cases hs : d.status = "Accepted"
      · simp [hr, hs, ih, allMandatoryAccepted, List.all_cons]
      · simp [hr, hs, allMandatoryAccepted, List.all_cons]
    · have hr' : d.is_required = false := by
        cases h : d.is_required
        · rfl
        · exact absurd h hr
      simp [hr', ih, allMandatoryAccepted, List.all_cons]

theorem applyChecklist_of_status_ne (c : Clearance)
    (h : c.status ≠ "Document Submitting") : applyChecklist c = c := by
  unfold applyChecklist
  rw [if_neg]
  intro hc
  exact h hc.1

theorem applyChecklist_docs (c : Clearance) :
    (applyChecklist c).required_documents = c.required_documents := by
  unfold applyChecklist
  split
  · dsimp only
    split <;> rfl
  · rfl

theorem applyChecklist_cases (c : Clearance) :
    applyChecklist c = c ∨ applyChecklist c = { c with status := "In Review" } := by
  unfold applyChecklist
  split
  · dsimp only
    split
    · right; rfl
    · left; rfl
  · left; rfl

theorem applyChecklist_eq (c : Clearance) (hDS : c.status = "Document Submitting")
    (hne : c.required_documents ≠ []) :
    applyChecklist c =
      if hasMandatory c.required_documents && allMandatoryAccepted c.required_documents then
        { c with status := "In Review" }
      else c := by
  unfold applyChecklist
  rw [if_pos ⟨hDS, hne⟩, scanDocs_eq]

theorem validate_status_transition_ok (prior : Option Clearance) (c : Clearance)
    (h1 : c.status ≠ "Risk Analysis") (h2 : c.status ≠ "Cleared") :
    validate_status_transition prior c = .ok () := by
  unfold validate_status_transition
  cases prior with
  | none => rfl
  | some p => simp [h1, h2]

theorem runValidate_guard_free (prior : Option Clearance) (c : Clearance)
    (h1 : (applyChecklist c).status ≠ "Risk Analysis")
    (h2 : (applyChecklist c).status ≠ "Cleared") :
    runValidate prior c = .ok (applyChecklist c) := by
  unfold runValidate
  have hok := validate_status_transition_ok prior (applyChecklist c) h1 h2
  cases hb : statusChanged prior (applyChecklist c)
  · simp [hb]
  · simp [hb, hok]

theorem runValidate_self_ok (c c2 : Clearance) (h : c2.status = c.status) :
    runValidate (some c) c2 = .ok (applyChecklist c2) := by
  rcases applyChecklist_cases c2 with hs | hs
  · cases hb : statusChanged (some c) (applyChecklist c2)
    · unfold runValidate
      simp [hb]
    · have hne : (applyChecklist c2).status ≠ c.status := by
        intro hcontra
        rw [statusChanged] at hb
        rw [hcontra] at hb
        simp at hb
      rw [hs, h] at hne
      exact absurd rfl hne
  · have h1 : (applyChecklist c2).status ≠ "Risk Analysis" := by
      rw [hs]
      show ("In Review" : String) ≠ "Risk Analysis"
      decide
    have h2 : (applyChecklist c2).status ≠ "Cleared" := by
      rw [hs]
      show ("In Review" : String) ≠ "Cleared"
      decide
    exact runValidate_guard_free (some c) c2 h1 h2

/-! ### Lemmas about the row-mutation loops -/

theorem setRowStatus_is_required (ds : List ReqDoc) (r s : String)
    (rsn : Option String) (h : ∀ d ∈ ds, d.is_required = false) :
    ∀ d ∈ setRowStatus ds r s rsn, d.is_required = false := by
  induction ds with
  | nil =>
    intro d hd
    simp [setRowStatus] at hd
  | cons a rest ih =>
    intro d hd
    unfold setRowStatus at hd
    by_cases hn : a.name = r
    · rw [if_pos hn] at hd
      rcases List.mem_cons.mp hd with hd | hd
      · rw [hd]
        exact h a (List.mem_cons_self a rest)
      · exact h d (List.mem_cons_of_mem a hd)
    · rw [if_neg hn] at hd
      rcases List.mem_cons.mp hd with hd | hd
      · rw [hd]
        exact h a (List.mem_cons_self a rest)
      · exact ih (fun x hx => h x (List.mem_cons_of_mem a hx)) d hd

theorem setRowStatus_ne_nil (ds : List ReqDoc) (r s : String) (rsn : Option String)
    (h : ds ≠ []) : setRowStatus ds r s rsn ≠ [] := by
  cases ds with
  | nil => exact absurd rfl h
  | cons a rest =>
    unfold setRowStatus
    by_cases hn : a.name = r
    · rw [if_pos hn]
      exact List.cons_ne_nil _ _
    · rw [if_neg hn]
      exact List.cons_ne_nil _ _

theorem hasMandatory_of_none (ds : List ReqDoc)
    (h : ∀ d ∈ ds, d.is_required = false) : hasMandatory ds = false := by
  unfold hasMandatory
  rw [List.any_eq_false]
  intro d hd
  simp [h d hd]

theorem allMandatoryAccepted_of_none (ds : List ReqDoc)
    (h : ∀ d ∈ ds, d.is_required = false) : allMandatoryAccepted ds = true := by
  unfold allMandatoryAccepted
  rw [List.all_eq_true]
  intro d hd
  simp [h d hd]

theorem find_setRowAttachment (ds : List ReqDoc) (r url : String) (reup : Bool)
    (d0 : ReqDoc) (h : ds.find? (fun d => d.name == r) = some d0) :
    (setRowAttachment ds r url reup).find? (fun d => d.name == r) =
      some (if reup ∧ d0.status = "Declined"
            then { d0 with attachment := some url, status := "In Review", reason := none }
            else { d0 with attachment := some url }) := by
  induction ds with
  | nil => simp at h
  | cons a rest ih =>
    by_cases hn : a.name = r
    · rw [List.find?_cons_of_pos _ (by simp [hn])] at h
      injection h with h'
      subst h'
      unfold setRowAttachment
      rw [if_pos hn]
      by_cases hc : reup ∧ a.status = "Declined"
      · rw [if_pos hc]
        exact List.find?_cons_of_pos _ (by simp [hn])
      · rw [if_neg hc]
        exact List.find?_cons_of_pos _ (by simp [hn])
    · rw [List.find?_cons_of_neg _ (by simp [hn])] at h
      unfold setRowAttachment
      rw [if_neg hn]
      rw [List.find?_cons_of_neg _ (by simp [hn])]
      exact ih h

theorem rowFound_of_find (ds : List ReqDoc) (r : String) (d0 : ReqDoc)
    (h : ds.find? (fun d => d.name == r) = some d0) : rowFound ds r = true := by
  unfold rowFound
  rw [List.any_eq_true]
  have hp := List.find?_some h
  exact ⟨d0, List.mem_of_find?_eq_some h, hp⟩

/-! ### Characterization lemmas for the endpoints -/

theorem validate_status_transition_some (p c : Clearance) :
    validate_status_transition (some p) c =
      (if c.status = "Risk Analysis" ∧ p.status ≠ "In Review" ∧ p.status ≠ "Risk Analysis" then
        .error (.validationError "Status can only be changed to Risk Analysis from In Review")
      else if c.status = "Cleared" ∧ p.status ≠ "Risk Analysis" ∧ p.status ≠ "Cleared" then
        .error (.validationError "Status can only be changed to Cleared from Risk Analysis")
      else .ok ()) := rfl

theorem runValidate_some_eq (p c : Clearance) (hne : c.status ≠ "Document Submitting") :
    runValidate (some p) c =
      if p.status = c.status then .ok c
      else if c.status = "Risk Analysis" ∧ p.status ≠ "In Review" ∧ p.status ≠ "Risk Analysis" then
        .error (.validationError "Status can only be changed to Risk Analysis from In Review")
      else if c.status = "Cleared" ∧ p.status ≠ "Risk Analysis" ∧ p.status ≠ "Cleared" then
        .error (.validationError "Status can only be changed to Cleared from Risk Analysis")
      else .ok c := by
  have hAC : applyChecklist c = c := applyChecklist_of_status_ne c hne
  unfold runValidate
  rw [hAC]
  dsimp only
  by_cases hpc : p.status = c.status
  · have hch : statusChanged (some p) c = false := by
      unfold statusChanged
      simp [hpc]
    rw [hch, if_pos hpc]
    simp
  · have hch : statusChanged (some p) c = true := by
      unfold statusChanged
      simp [hpc]
    rw [hch, validate_status_transition_some, if_neg hpc]
    by_cases hA : c.status = "Risk Analysis" ∧ p.status ≠ "In Review" ∧ p.status ≠ "Risk Analysis"
    · simp [hA]
    · by_cases hB : c.status = "Cleared" ∧ p.status ≠ "Risk Analysis" ∧ p.status ≠ "Cleared"
      · simp [hA, hB]
      · simp [hA, hB]

theorem customerMatchPerm_ok (env : Env) (user : String) (c : Clearance)
    (h : user = "Administrator" ∨ resolveCustomer env user = some c.customer) :
    customerMatchPerm env user c = .ok () := by
  rcases h with h | h
  · simp [customerMatchPerm, h]
  · unfold customerMatchPerm
    by_cases hA : user = "Administrator"
    · rw [if_pos hA]
    · rw [if_neg hA, h]
      simp

theorem update_document_status_shape (env : Env) (user : String) (c : Clearance)
    (row st : String) (rsn : Option String)
    (hGuest : user ≠ "Guest")
    (hPerm : user = "Administrator" ∨ resolveCustomer env user = some c.customer)
    (hRow : rowFound c.required_documents row = true) :
    update_document_status env user c row st rsn =
      match runValidate (some c)
          { c with required_documents := setRowStatus c.required_documents row st rsn } with
      | .error e => .error e
      | .ok saved =>
        if saved.status = "Document Submitting" ∧ saved.required_documents ≠ [] then
          if postScan saved.required_documents then .ok { saved with status := "Review" }
          else .ok saved
        else .ok saved := by
  unfold update_document_status
  rw [if_neg hGuest, customerMatchPerm_ok env user c hPerm]
  dsimp only
  rw [if_pos hRow]

theorem update_document_attachment_shape (env : Env) (user : String) (c : Clearance)
    (row url : String) (reup : Bool)
    (hGuest : user ≠ "Guest")
    (hPerm : user = "Administrator" ∨ resolveCustomer env user = some c.customer)
    (hRow : rowFound c.required_documents row = true) :
    update_document_attachment env user c row url reup =
      runValidate (some c)
        { c with required_documents := setRowAttachment c.required_documents row url reup } := by
  unfold update_document_attachment
  rw [if_neg hGuest, customerMatchPerm_ok env user c hPerm]
  dsimp only
  rw [if_pos hRow]

theorem mergePayment_status (c : Clearance) (pt : String) (a : Option Rat)
    (b acc cid : Option String) : (mergePayment c pt a b acc cid).status = c.status := by
  unfold mergePayment
  split
  · rfl
  · split <;> rfl

theorem rate_eq_getD (a : Option Rat) :
    (if ratTruthy a then a.getD 0 else 0) = a.getD 0 := by
  cases a with
  | none => simp [ratTruthy]
  | some v =>
    by_cases hv : v = 0
    · simp [ratTruthy, hv]
    · simp [ratTruthy, hv]

theorem mapPaymentStatus_eq (s : String) :
    mapPaymentStatus s =
      if s = "Paid" then "Paid"
      else if s = "Partly Paid" ∨ s = "Partly Paid and Discounted" then "Partially Paid"
      else "Pending" := by
  unfold mapPaymentStatus
  by_cases h1 : s = "Paid"
  · simp [h1]
  · rw [if_neg h1, if_neg h1]
    by_cases h2 : s = "Partly Paid" ∨ s = "Partly Paid and Discounted"
    · rw [if_pos h2, if_pos h2]
    · rw [if_neg h2, if_neg h2]
      split <;> rfl

/-! ### The claims -/

/-- C1: For every save of a Clearance Record that has a previously persisted
version and whose status changed: saving with status "Risk Analysis"
succeeds when the prior persisted status was "In Review" or "Risk Analysis"
and otherwise fails with a validation error; saving with status "Cleared"
succeeds when the prior status was "Risk Analysis" or "Cleared" and
otherwise fails with a validation error; the self-transitions are covered by
the success conjuncts. -/
theorem c1_transition_guard (p c : Clearance) :
    (c.status = "Risk Analysis" ∧ p.status ≠ "In Review" ∧ p.status ≠ "Risk Analysis" →
      runValidate (some p) c =
        .error (.validationError "Status can only be changed to Risk Analysis from In Review")) ∧
    (c.status = "Risk Analysis" ∧ (p.status = "In Review" ∨ p.status = "Risk Analysis") →
      ∃ r, runValidate (some p) c = .ok r) ∧
    (c.status = "Cleared" ∧ p.status ≠ "Risk Analysis" ∧ p.status ≠ "Cleared" →
      runValidate (some p) c =
        .error (.validationError "Status can only be changed to Cleared from Risk Analysis")) ∧
    (c.status = "Cleared" ∧ (p.status = "Risk Analysis" ∨ p.status = "Cleared") →
      ∃ r, runValidate (some p) c = .ok r) := by
  refine ⟨?_, ?_, ?_, ?_⟩
  · rintro ⟨hRA, h1, h2⟩
    have hne : c.status ≠ "Document Submitting" := by rw [hRA]; decide
    rw [runValidate_some_eq p c hne]
    have hpc : ¬ p.status = c.status := by rw [hRA]; exact h2
    rw [if_neg hpc, if_pos ⟨hRA, h1, h2⟩]
  · rintro ⟨hRA, hp⟩
    have hne : c.status ≠ "Document Submitting" := by rw [hRA]; decide
    rw [runValidate_some_eq p c hne]
    rcases hp with hp | hp
    · have hpc : ¬ p.status = c.status := by rw [hp, hRA]; decide
      rw [if_neg hpc]
      rw [if_neg (fun hcon => hcon.2.1 hp)]
      rw [if_neg (fun hcon => by rw [hRA] at hcon; exact absurd hcon.1 (by decide))]
      exact ⟨c, rfl⟩
    · have hpc : p.status = c.status := by rw [hp, hRA]
      rw [if_pos hpc]
      exact ⟨c, rfl⟩
  · rintro ⟨hCl, h1, h2⟩
    have hne : c.status ≠ "Document Submitting" := by rw [hCl]; decide
    rw [runValidate_some_eq p c hne]
    have hpc : ¬ p.status = c.status := by rw [hCl]; exact h2
    rw [if_neg hpc]
    rw [if_neg (fun hcon => by rw [hCl] at hcon; exact absurd hcon.1 (by decide))]
    rw [if_pos ⟨hCl, h1, h2⟩]
  · rintro ⟨hCl, hp⟩
    have hne : c.status ≠ "Document Submitting" := by rw [hCl]; decide
    rw [runValidate_some_eq p c hne]
    rcases hp with hp | hp
    · have hpc : ¬ p.status = c.status := by rw [hp, hCl]; decide
      rw [if_neg hpc]
      rw [if_neg (fun hcon => by rw [hCl] at hcon; exact absurd hcon.1 (by decide))]
      rw [if_neg (fun hcon => hcon.2.1 hp)]
      exact ⟨c, rfl⟩
    · have hpc : p.status = c.status := by rw [hp, hCl]
      rw [if_pos hpc]
      exact ⟨c, rfl⟩

/-- C1 witness: a clearance previously persisted as "In Review" saved with
status "Risk Analysis" passes the guard. -/
theorem c1_transition_guard_witness :
    ∃ r, runValidate (some { baseClearance with status := "In Review" })
      { baseClearance with status := "Risk Analysis" } = .ok r :=
  (c1_transition_guard { baseClearance with status := "In Review" }
    { baseClearance with status := "Risk Analysis" }).2.1 ⟨rfl, Or.inl rfl⟩

/-- C2: For a clearance being saved with status "Document Submitting" and a
non-empty required-documents list, the save promotes the status to
"In Review" exactly when a mandatory row exists and every mandatory row is
accepted, and otherwise the save leaves the status at "Document Submitting";
both alternatives save successfully. -/
theorem c2_checklist_promotion (prior : Option Clearance) (c : Clearance)
    (hDS : c.status = "Document Submitting") (hne : c.required_documents ≠ []) :
    (hasMandatory c.required_documents = true →
      allMandatoryAccepted c.required_documents = true →
      runValidate prior c = .ok { c with status := "In Review" }) ∧
    (hasMandatory c.required_documents = false ∨
      allMandatoryAccepted c.required_documents = false →
      runValidate prior c = .ok c) := by
  constructor
  · intro hm ha
    have hAC : applyChecklist c = { c with status := "In Review" } := by
      rw [applyChecklist_eq c hDS hne, hm, ha]
      simp
    have h1 : (applyChecklist c).status ≠ "Risk Analysis" := by
      rw [hAC]
      show ("In Review" : String) ≠ "Risk Analysis"
      decide
    have h2 : (applyChecklist c).status ≠ "Cleared" := by
      rw [hAC]
      show ("In Review" : String) ≠ "Cleared"
      decide
    have h := runValidate_guard_free prior c h1 h2
    rw [hAC] at h
    exact h
  · intro hcase
    have hAC : applyChecklist c = c := by
      rw [applyChecklist_eq c hDS hne]
      rcases hcase with h | h
      · rw [h]; simp
      · rw [h]; simp
    have h1 : (applyChecklist c).status ≠ "Risk Analysis" := by
      rw [hAC, hDS]; decide
    have h2 : (applyChecklist c).status ≠ "Cleared" := by
      rw [hAC, hDS]; decide
    have h := runValidate_guard_free prior c h1 h2
    rw [hAC] at h
    exact h

/-- C2 witness: a clearance whose single mandatory row is accepted is
promoted to "In Review" by the save. -/
theorem c2_checklist_promotion_witness :
    runValidate none clearanceAllAccepted =
      .ok { clearanceAllAccepted with status := "In Review" } :=
  (c2_checklist_promotion none clearanceAllAccepted rfl (by decide)).1 rfl rfl

/-- C3 counterexample: user "alice" holds exactly the Customer role and her
session resolves through a Contact link to customer "CUST-B", yet invoking
`update_clearance_status` on the clearance of customer "CUST-A" succeeds and
changes the status — refuting the claim that every such caller fails with a
permission error and leaves the status unchanged. -/
theorem c3_customer_caller_counterexample :
    envOther.roles "alice" = ["Customer"] ∧
    resolveCustomer envOther "alice" = some "CUST-B" ∧
    baseClearance.customer = "CUST-A" ∧
    baseClearance.status = "Document Submitting" ∧
    update_clearance_status envOther "alice" baseClearance "In Review" none none =
      .ok { baseClearance with status := "In Review" } :=
  ⟨rfl, rfl, rfl, rfl, rfl⟩

/-- C3 (amended): a non-Administrator authenticated caller whose session
resolves (via contact link or portal-user link) to the clearance's own
customer always fails with a PermissionDenied error regardless of target
status, so the clearance is not modified; only callers not resolving to the
clearance's own customer (staff or the administrator, but also callers
linked to a different customer) pass this check. -/
theorem c3_status_permission_amended (env : Env) (user : String) (c : Clearance)
    (st : String) (cm : Option String) (ad : Option Rat)
    (hGuest : user ≠ "Guest") (hAdmin : user ≠ "Administrator")
    (hRes : resolveCustomer env user = some c.customer) :
    update_clearance_status env user c st cm ad =
      .error (.permissionDenied "You do not have permission to change the clearance status") := by
  unfold update_clearance_status
  rw [if_neg hGuest]
  have hown : isOwnCustomer env user c = true := by
    unfold isOwnCustomer
    rw [if_neg hAdmin, hRes]
    simp
  rw [if_pos hown]

/-- C3 (amended) witness: user "bob", linked to "CUST-A", is rejected when
trying to set any status on the clearance of "CUST-A". -/
theorem c3_status_permission_amended_witness :
    update_clearance_status envOwn "bob" baseClearance "Cleared" none none =
      .error (.permissionDenied "You do not have permission to change the clearance status") :=
  c3_status_permission_amended envOwn "bob" baseClearance "Cleared" none none
    (by decide) (by decide) rfl

/-- C4: In a successful `update_document_status` call, after the guarded
save has persisted the row update, if the saved clearance's status is
"Document Submitting", its required-documents list is non-empty, and the
re-scan finds every mandatory row accepted, then the endpoint returns the
saved clearance with status forced to "Review" by the direct field write
(no further validation runs on that write). -/
theorem c4_post_save_promotion (env : Env) (user : String) (c : Clearance)
    (row st : String) (rsn : Option String) (saved : Clearance)
    (hGuest : user ≠ "Guest")
    (hPerm : user = "Administrator" ∨ resolveCustomer env user = some c.customer)
    (hRow : rowFound c.required_documents row = true)
    (hSave : runValidate (some c)
      { c with required_documents := setRowStatus c.required_documents row st rsn } =
      .ok saved)
    (hDS : saved.status = "Document Submitting")
    (hne : saved.required_documents ≠ [])
    (hAll : allMandatoryAccepted saved.required_documents = true) :
    update_document_status env user c row st rsn = .ok { saved with status := "Review" } := by
  rw [update_document_status_shape env user c row st rsn hGuest hPerm hRow, hSave]
  dsimp only
  rw [if_pos ⟨hDS, hne⟩]
  have hps : postScan saved.required_documents = true := by
    rw [postScan_eq]
    exact hAll
  rw [if_pos hps]

/-- C4 witness: accepting the only (optional) row of `clearanceNoMandatory`
leaves the guarded save at "Document Submitting" and the post-save re-scan
then forces the status to "Review". -/
theorem c4_post_save_promotion_witness :
    update_document_status envTriv "Administrator" clearanceNoMandatory "ROW1" "Accepted" none =
      .ok { savedNoMandatory with status := "Review" } :=
  c4_post_save_promotion envTriv "Administrator" clearanceNoMandatory "ROW1" "Accepted" none
    savedNoMandatory (by decide) (Or.inl rfl) rfl rfl rfl (by decide) rfl

/-- C5: in a successful `update_document_attachment` call targeting row
`row` whose current content is `d0`, the resulting clearance's row carries
the new attachment; when the reupload flag is set and `d0` was "Declined"
the row's status is reset to "In Review" and its reason cleared, and
otherwise the row's status and reason are exactly those of `d0`. -/
theorem c5_attachment_update (env : Env) (user : String) (c : Clearance)
    (row url : String) (reup : Bool) (d0 : ReqDoc)
    (hGuest : user ≠ "Guest")
    (hPerm : user = "Administrator" ∨ resolveCustomer env user = some c.customer)
    (hFind : c.required_documents.find? (fun d => d.name == row) = some d0) :
    ∃ final, update_document_attachment env user c row url reup = .ok final ∧
      final.required_documents.find? (fun d => d.name == row) =
        some (if reup ∧ d0.status = "Declined"
              then { d0 with attachment := some url, status := "In Review", reason := none }
              else { d0 with attachment := some url }) := by
  have hRow := rowFound_of_find c.required_documents row d0 hFind
  have hshape := update_document_attachment_shape env user c row url reup hGuest hPerm hRow
  have hRV := runValidate_self_ok c
    { c with required_documents := setRowAttachment c.required_documents row url reup } rfl
  refine ⟨applyChecklist
    { c with required_documents := setRowAttachment c.required_documents row url reup },
    ?_, ?_⟩
  · rw [hshape]
    exact hRV
  · rw [applyChecklist_docs]
    exact find_setRowAttachment c.required_documents row url reup d0 hFind

/-- C5 witness: re-uploading on the declined row of `clearanceDeclinedRow`
with the reupload flag resets it to "In Review" with no reason and the new
attachment. -/
theorem c5_attachment_update_witness :
    ∃ final,
      update_document_attachment envTriv "Administrator" clearanceDeclinedRow
        "ROW1" "/files/new.pdf" true = .ok final ∧
      final.required_documents.find? (fun d => d.name == "ROW1") =
        some (if true ∧ rowDeclined.status = "Declined"
              then { rowDeclined with
                     attachment := some "/files/new.pdf",
                     status := "In Review", reason := none }
              else { rowDeclined with attachment := some "/files/new.pdf" }) :=
  c5_attachment_update envTriv "Administrator" clearanceDeclinedRow
    "ROW1" "/files/new.pdf" true rowDeclined (by decide) (Or.inl rfl) rfl

/-- C6: on an invoice status change for an invoice linked to a clearance,
the clearance's payment status becomes "Paid" when the invoice status is
"Paid", "Partially Paid" for either partly-paid variant, and "Pending" for
every other status including unrecognized values; the payment date is
stamped with the current date exactly when the invoice status is "Paid";
the status field (and everything else) is untouched, as the writes are
direct field updates that never run the validation hook. -/
theorem c6_payment_mirror (c : Clearance) (inv today : String) :
    update_clearance_payment_status (some c) inv today =
      some { c with
             payment_status :=
               if inv = "Paid" then "Paid"
               else if inv = "Partly Paid" ∨ inv = "Partly Paid and Discounted" then
                 "Partially Paid"
               else "Pending",
             payment_date := if inv = "Paid" then some today else c.payment_date } := by
  unfold update_clearance_payment_status
  dsimp only
  rw [mapPaymentStatus_eq]
  by_cases h1 : inv = "Paid"
  · simp [h1]
  · by_cases h2 : inv = "Partly Paid" ∨ inv = "Partly Paid and Discounted"
    · simp [h1, h2]
    · simp [h1, h2]

/-- C7: on cancellation of an invoice linked to a clearance, the invoice
reference is cleared, the payment status reset to "Pending", the payment
date cleared, and the status rolled back to "Review" exactly when it was
"Green", "Yellow" or "Red" (otherwise left unchanged). -/
theorem c7_invoice_cancel (c : Clearance) :
    handle_sales_invoice_cancel (some c) =
      some { c with
             sales_invoice := none,
             payment_status := "Pending",
             payment_date := none,
             status :=
               if c.status = "Green" ∨ c.status = "Yellow" ∨ c.status = "Red" then "Review"
               else c.status } := by
  unfold handle_sales_invoice_cancel
  dsimp only
  by_cases h : c.status = "Green" ∨ c.status = "Yellow" ∨ c.status = "Red"
  · simp [h]
  · simp [h]

/-- C8: `create_sales_invoice` on a clearance with a linked invoice fails
with the duplicate error (and returns nothing, so the existing reference is
unchanged); on a clearance with no linked invoice (and the service item
installed) it builds an unsubmitted invoice for the clearance's customer
with a single line at the clearance's amount (zero when unset), links the
new invoice name back, and returns that name. -/
theorem c8_invoice_creation (env : SIEnv) (c : Clearance) (today nm : String) :
    (c.sales_invoice.isSome = true →
      create_sales_invoice env c today nm =
        .error (.duplicateOp "Sales Invoice already created")) ∧
    (∀ item, c.sales_invoice = none → env.service_item = some item →
      create_sales_invoice env c today nm =
        .ok ({ customer := c.customer, posting_date := today, due_date := today,
               items := [{ item_code := item, qty := 1, rate := c.amount.getD 0 }],
               custom_clearance_link :=
                 if env.has_clearance_column then some c.name else none,
               submitted := false },
             { c with sales_invoice := some nm }, nm)) := by
  constructor
  · intro h
    unfold create_sales_invoice
    rw [if_pos h]
  · intro item h1 h2
    unfold create_sales_invoice
    rw [if_neg (by simp [h1]), h2]
    dsimp only
    rw [rate_eq_getD]

/-- C8 witness: the duplicate failure on a linked clearance and the
successful creation (with zero rate, `amount` unset) on an unlinked one. -/
theorem c8_invoice_creation_witness :
    create_sales_invoice envSI clearanceLinked "2026-02-01" "SINV-0002" =
      .error (.duplicateOp "Sales Invoice already created") ∧
    create_sales_invoice envSI baseClearance "2026-02-01" "SINV-0002" =
      .ok ({ customer := "CUST-A", posting_date := "2026-02-01", due_date := "2026-02-01",
             items := [{ item_code := "Custom Clearance Service", qty := 1, rate := 0 }],
             custom_clearance_link := some "CC-0001",
             submitted := false },
           { baseClearance with sales_invoice := some "SINV-0002" }, "SINV-0002") :=
  ⟨(c8_invoice_creation envSI clearanceLinked "2026-02-01" "SINV-0002").1 rfl,
   (c8_invoice_creation envSI baseClearance "2026-02-01" "SINV-0002").2
     "Custom Clearance Service" rfl rfl⟩

/-- C9: for a non-guest staff caller and a valid payment type,
`save_payment_info` merges the supplied payment fields, saves them and
returns success, with the saved clearance independent of the notification
environment — so a failure while resolving the customer user or inserting
the notification is never propagated and never undoes the saved fields; the
saved clearance can differ from the merge only by the checklist engine's
status promotion. -/
theorem c9_payment_info_save (env : Env) (notif : NotifEnv) (user : String)
    (c : Clearance) (pt : String) (amount : Option Rat)
    (branch acct cid : Option String)
    (hGuest : user ≠ "Guest") (hStaff : isStaff env user = true)
    (hType : pt = "first" ∨ pt = "second") :
    save_payment_info env notif user c pt amount branch acct cid =
      .ok (applyChecklist (mergePayment c pt amount branch acct cid),
           notificationAttempt notif c.customer) ∧
    (applyChecklist (mergePayment c pt amount branch acct cid) =
       mergePayment c pt amount branch acct cid ∨
     applyChecklist (mergePayment c pt amount branch acct cid) =
       { mergePayment c pt amount branch acct cid with status := "In Review" }) := by
  constructor
  · unfold save_payment_info
    rw [if_neg hGuest, if_neg (not_not_intro hStaff), if_neg (not_not_intro hType)]
    dsimp only
    rw [runValidate_self_ok c (mergePayment c pt amount branch acct cid)
        (mergePayment_status c pt amount branch acct cid)]
  · exact applyChecklist_cases (mergePayment c pt amount branch acct cid)

/-- C9 witness: staff user "staff1" saves first-payment fields while the
notification insert raises; the call still returns success with the merged
fields, and the notification outcome is false. -/
theorem c9_payment_info_save_witness :
    save_payment_info envStaff notifFailing "staff1" baseClearance "first"
      (some 100) (some "Main") none none =
      .ok ({ baseClearance with amount := some 100, first_payment_branch := some "Main" },
           false) :=
  (c9_payment_info_save envStaff notifFailing "staff1" baseClearance "first"
    (some 100) (some "Main") none none (by decide) rfl (Or.inl rfl)).1

/-- C10: for a clearance in "Document Submitting" whose required-documents
list is non-empty but has no mandatory row, a successful
`update_document_status` call on any row forces the overall status to
"Review" via the post-save direct write (the re-scan is vacuously true),
even though the save-time checklist engine left the status unchanged. -/
theorem c10_vacuous_promotion (env : Env) (user : String) (c : Clearance)
    (row st : String) (rsn : Option String)
    (hGuest : user ≠ "Guest")
    (hPerm : user = "Administrator" ∨ resolveCustomer env user = some c.customer)
    (hRow : rowFound c.required_documents row = true)
    (hDS : c.status = "Document Submitting")
    (hne : c.required_documents ≠ [])
    (hNoMand : ∀ d ∈ c.required_documents, d.is_required = false) :
    update_document_status env user c row st rsn =
      .ok { c with
            required_documents := setRowStatus c.required_documents row st rsn,
            status := "Review" } ∧
    applyChecklist
        { c with required_documents := setRowStatus c.required_documents row st rsn } =
      { c with required_documents := setRowStatus c.required_documents row st rsn } := by
  have hreq := setRowStatus_is_required c.required_documents row st rsn hNoMand
  have hne2 := setRowStatus_ne_nil c.required_documents row st rsn hne
  have hAC : applyChecklist
      { c with required_documents := setRowStatus c.required_documents row st rsn } =
      { c with required_documents := setRowStatus c.required_documents row st rsn } := by
    rw [applyChecklist_eq
      { c with required_documents := setRowStatus c.required_documents row st rsn } hDS hne2]
    rw [hasMandatory_of_none _ hreq]
    simp
  refine ⟨?_, hAC⟩
  rw [update_document_status_shape env user c row st rsn hGuest hPerm hRow]
  have hRV := runValidate_self_ok c
    { c with required_documents := setRowStatus c.required_documents row st rsn } rfl
  rw [hRV, hAC]
  dsimp only
  rw [if_pos ⟨hDS, hne2⟩]
  have hps : postScan (setRowStatus c.required_documents row st rsn) = true := by
    rw [postScan_eq]
    exact allMandatoryAccepted_of_none _ hreq
  rw [if_pos hps]

/-- C10 witness: declining one of two optional rows still flips the overall
status to "Review" through the vacuous post-save re-scan. -/
theorem c10_vacuous_promotion_witness :
    update_document_status envTriv "Administrator" clearanceTwoOptional "ROW2" "Declined" none =
      .ok { clearanceTwoOptional with
            required_documents :=
              setRowStatus clearanceTwoOptional.required_documents "ROW2" "Declined" none,
            status := "Review" } :=
  (c10_vacuous_promotion envTriv "Administrator" clearanceTwoOptional "ROW2" "Declined" none
    (by decide) (Or.inl rfl) rfl rfl (by decide) (by decide)).1

end CustomClearance
